import Mathlib

/-!
Verification of the movement-classification engine of ArcelorPrevicAuto
(src/main.py).  The definitions below are a shallow embedding of
the functions carregar_base_conhecimento, analisar_movimentacoes_mes and
calcular_stats_participantes.  Python sets over benefit codes are
modelled as Finset Nat; the per-record dataframe columns ANALISE and
GRAVIDADE become a list of String × Gravidade aligned with the records
of the group.  Where Python joins a set into a message string with
commas, the iteration order of a Python set is implementation-defined;
we fix ascending order (Python itself sorts in the one joining branch,
line 405, whose message a claim depends on).
-/

set_option maxRecDepth 20000

namespace ArcelorPrevic

inductive Movimento where
  | entrada
  | saida
deriving DecidableEq, Repr

/-- One row of the movement dataframe: plan, benefit code, direction
(columns PLANO, CODIGO BENEFICIO and MOVIMENTO of df_mov). -/
structure Registro where
  plano : Nat
  codigo : Nat
  movimento : Movimento
deriving DecidableEq, Repr

/-- The GRAVIDADE values OK, INFO and ERRO. -/
inductive Gravidade where
  | ok
  | info
  | erro
deriving DecidableEq, Repr

/-! Constants from carregar_base_conhecimento (src/main.py lines 96-108). -/

def CODIGOS_RUIDO_SAIDA : Finset Nat :=
  {31100, 31200, 31300, 31000, 32000, 33000, 11000, 14000}

def CODIGOS_ADMISSAO : Finset Nat := {31100, 31200}

def CODIGOS_ATIVOS : Finset Nat := {31100, 31200, 31300}

def CODIGOS_SEM_RETORNO : Finset Nat := {21000}

def CODIGOS_ENTRADA_INDEPENDENTE : Finset Nat := {13000, 24100, 24200}

/-- The transition rule table regras_validas (src/main.py lines 110-138). -/
def regras_validas : Finset (Nat × Nat) :=
  { (31100, 11100), (31200, 11100), (31300, 11100), (21000, 11100), (22000, 11100),
    (31100, 11200), (31200, 11200), (31300, 11200), (12000, 11200), (21000, 11200), (22000, 11200),
    (31100, 12000), (31200, 12000), (31300, 12000), (22000, 12000),
    (31100, 13000), (31200, 13000), (31300, 13000), (11100, 13000), (11200, 13000),
    (31100, 14000), (31200, 14000), (31300, 14000), (11100, 14000), (11200, 14000), (22000, 14000),
    (31100, 15000), (31200, 15000), (31300, 15000), (11100, 15000), (11200, 15000),
    (14000, 15000), (21000, 15000), (22000, 15000),
    (31100, 16000), (31200, 16000), (31300, 16000), (11100, 16000), (11200, 16000),
    (21000, 16000), (22000, 16000),
    (31100, 21000), (31200, 21000), (31300, 21000), (22000, 21000),
    (31100, 22000), (31200, 22000), (31300, 22000),
    (31100, 23000), (31200, 23000), (31300, 23000), (21000, 23000), (22000, 23000),
    (31100, 24100), (31200, 24100), (31300, 24100), (21000, 24100), (22000, 24100),
    (31100, 24200), (31200, 24200), (31300, 24200), (21000, 24200), (22000, 24200),
    (11100, 24200), (11200, 24200),
    (31200, 31100), (12000, 31100), (22000, 31100),
    (31100, 31200), (12000, 31200), (22000, 31200),
    (31100, 31300), (31200, 31300), (21000, 31300), (22000, 31300) }

/-- Lookup get_descricao over the static catalog codigos_data
(src/main.py lines 75-93 and 150-153). -/
def descricao (codigo : Nat) : String :=
  if codigo = 11100 then "Aposentadoria Normal"
  else if codigo = 11200 then "Aposentadoria por Invalidez"
  else if codigo = 16000 then "Outros Benefícios de Prestação Única"
  else if codigo = 15000 then "Pecúlio (Pagamento a Herdeiros)"
  else if codigo = 14000 then "Pensão por Morte"
  else if codigo = 13000 then "Auxílio Único (Natalidade/Funeral)"
  else if codigo = 12000 then "Auxílio Continuado (Afastamento Doença)"
  else if codigo = 21000 then "BPD (Benefício Proporcional Diferido)"
  else if codigo = 22000 then "Autopatrocinado"
  else if codigo = 23000 then "Resgate Total"
  else if codigo = 24100 then "Portabilidade Saída"
  else if codigo = 24200 then "Portabilidade Entrada"
  else if codigo = 31100 then "Ativo com Contrib. Empresa"
  else if codigo = 31200 then "Ativo com Contrib. Empresa + Participante"
  else if codigo = 31300 then "Ativo Contrib. Só Participante"
  else if codigo = 31000 then "Consolidado Ativos"
  else if codigo = 32000 then "Consolidado Aposentados"
  else if codigo = 33000 then "Consolidado Pensionistas"
  else if codigo = 34000 then "Designados (Dependentes)"
  else "Código Desconhecido (" ++ toString codigo ++ ")"

/-! Derived sets of a participant-month group
(analisar_movimentacoes_mes, lines 189-315). -/

/-- Set of entry codes of the group (line 206). -/
def codigosEntrada (g : List Registro) : Finset Nat :=
  ((g.filter (fun r => r.movimento == Movimento.entrada)).map Registro.codigo).toFinset

/-- Set of exit codes of the group (line 210). -/
def codigosSaida (g : List Registro) : Finset Nat :=
  ((g.filter (fun r => r.movimento == Movimento.saida)).map Registro.codigo).toFinset

/-- The distinct plans of the group (line 191). -/
def planos (g : List Registro) : Finset Nat :=
  (g.map Registro.plano).toFinset

/-- Entry codes of one plan intersected with CODIGOS_ATIVOS (lines 191-195). -/
def entradasAtivasPlano (g : List Registro) (p : Nat) : Finset Nat :=
  codigosEntrada (g.filter (fun r => r.plano == p)) ∩ CODIGOS_ATIVOS

/-- Plans caught by Validação 1 (lines 197-202): more than one active
entry code in the same plan.  Each such plan gets a plan-scoped error
message and one erros increment; the continue statement there is inside
the plan loop, so the rest of the group analysis still runs. -/
def planosComMultiplasAtivas (g : List Registro) : Finset Nat :=
  (planos g).filter (fun p => 1 < (entradasAtivasPlano g p).card)

def msgPlano (p : Nat) : String :=
  "ERRO: Múltiplas situações ativas no Plano " ++ toString p

/-- Plan of the first record of the group (line 393). -/
def planoGrupo (g : List Registro) : Nat :=
  (g.head?.map Registro.plano).getD 0

/-! The group-wide validations with early continue
(lines 212-287).  The first one that fires stamps its message and ERRO on
the whole group and skips everything after it. -/

def msgSaida14000 : String :=
  "ERRO: Saída no código 14000 (Pensão por Morte) sem saída correspondente na conta 33000 (Consolidado Pensionistas)"

def msgEntrada14000 : String :=
  "ERRO: Entrada no código 14000 (Pensão por Morte) sem entrada correspondente na conta 33000 (Consolidado Pensionistas)"

def msgPensaoPeculio : String := "ERRO: PENSÃO e PECÚLIO no mesmo mês"

def msg32000 : String :=
  "ERRO: Código 32000 lançado sem movimentação correspondente nas contas de aposentados (11000, 11100, 11200)"

def msg31300 : String :=
  "ERRO: Código 31300 lançado sem movimentação correspondente nas contas de instituto (21000, 22000)"

def msgEntrada33000 : String :=
  "ERRO: Entrada no código 33000 (Consolidado Pensionistas) sem entrada correspondente na conta 14000 (Pensão por Morte)"

def msgSaida33000 : String :=
  "ERRO: Saída no código 33000 (Consolidado Pensionistas) sem saída correspondente na conta 14000 (Pensão por Morte)"

def msg33000SemPensao : String :=
  "ERRO: Código 33000 lançado sem movimentação correspondente na conta de pensão (14000)"

/-- Validações 1.5, 2, 3 and 4 (lines 212-287), in source order, as a
first-match chain; none means no early validation fired and the analysis
continues to the net-set computation. -/
def validacaoGrupo (E S : Finset Nat) : Option String :=
  if (14000 ∈ E ∨ 14000 ∈ S) ∧ (14000 ∈ S ∧ 33000 ∉ S) then some msgSaida14000
  else if (14000 ∈ E ∨ 14000 ∈ S) ∧ (14000 ∈ E ∧ 33000 ∉ E) then some msgEntrada14000
  else if 14000 ∈ E ∧ 15000 ∈ E then some msgPensaoPeculio
  else if (32000 ∈ E ∨ 32000 ∈ S) ∧ (E ∪ S) ∩ ({11000, 11100, 11200} : Finset Nat) = ∅ then
    some msg32000
  else if (31300 ∈ E ∨ 31300 ∈ S) ∧ (E ∪ S) ∩ ({21000, 22000} : Finset Nat) = ∅ then
    some msg31300
  else if (33000 ∈ E ∨ 33000 ∈ S) ∧ (33000 ∈ E ∧ 14000 ∉ E) then some msgEntrada33000
  else if (33000 ∈ E ∨ 33000 ∈ S) ∧ (33000 ∈ S ∧ 14000 ∉ S) then some msgSaida33000
  else if (33000 ∈ E ∨ 33000 ∈ S) ∧ (14000 ∉ E ∧ 14000 ∉ S) then some msg33000SemPensao
  else none

/-! Net-set computation (lines 289-315). -/

/-- Independent entry codes (lines 289-292): entry codes in
CODIGOS_ENTRADA_INDEPENDENTE, plus 34000. -/
def codigosEntradaIndependentes (E : Finset Nat) : Finset Nat :=
  (E ∩ CODIGOS_ENTRADA_INDEPENDENTE) ∪ (E ∩ ({34000} : Finset Nat))

/-- Principal entry codes (line 293). -/
def codigosEntradaPrincipal (E : Finset Nat) : Finset Nat :=
  E \ codigosEntradaIndependentes E

/-- Intermediate codes (line 295). -/
def codigosIntermediarios (E S : Finset Nat) : Finset Nat :=
  S ∩ codigosEntradaPrincipal E

/-- Raw net exits (line 299). -/
def saidasLiquidasBrutas (E S : Finset Nat) : Finset Nat :=
  S \ codigosEntradaPrincipal E

/-- Net entries before noise filtering (line 300). -/
def entradasLiquidas (E S : Finset Nat) : Finset Nat :=
  codigosEntradaPrincipal E \ S

/-- Net exits (lines 306-310): noise codes are subtracted only
when there is more than one raw net exit. -/
def saidasLiquidas (E S : Finset Nat) : Finset Nat :=
  if 1 < (saidasLiquidasBrutas E S).card then saidasLiquidasBrutas E S \ CODIGOS_RUIDO_SAIDA
  else saidasLiquidasBrutas E S

/-- Filtered net entries (lines 312-315). -/
def entradasLiquidasFiltradas (E S : Finset Nat) : Finset Nat :=
  if 1 < (entradasLiquidas E S).card then entradasLiquidas E S \ CODIGOS_RUIDO_SAIDA
  else entradasLiquidas E S

/-- The elements of a code set listed in ascending order (insertion
sort, so that concrete evaluations reduce inside the kernel). -/
def listaOrdenada (t : Finset Nat) : List Nat :=
  Quot.liftOn t.val (fun l => List.insertionSort (fun a b => a ≤ b) l)
    (fun a b h => List.eq_of_perm_of_sorted
      (((List.perm_insertionSort _ a).trans h).trans (List.perm_insertionSort _ b).symm)
      (List.sorted_insertionSort _ a) (List.sorted_insertionSort _ b))

/-- The first element taken from a singleton Python set. -/
def escolha (t : Finset Nat) : Nat :=
  (listaOrdenada t).headD 0

/-- Comma join of a code set, iteration order fixed ascending. -/
def listaCodigos (t : Finset Nat) : String :=
  String.intercalate ", " ((listaOrdenada t).map (fun n => toString n))

/-- Verdict of the guard cascade of one group plus the stats increments
it performs. -/
structure Veredito where
  msg : String
  gravidade : Gravidade
  ok : Nat
  info : Nat
  erros : Nat
deriving DecidableEq, Repr

def okV (b : Veredito) (m : String) : Veredito :=
  { msg := m, gravidade := Gravidade.ok, ok := b.ok + 1, info := b.info, erros := b.erros }

def infoV (b : Veredito) (m : String) : Veredito :=
  { msg := m, gravidade := Gravidade.info, ok := b.ok, info := b.info + 1, erros := b.erros }

def erroV (b : Veredito) (m : String) : Veredito :=
  { msg := m, gravidade := Gravidade.erro, ok := b.ok, info := b.info, erros := b.erros + 1 }

/-- The terminal classification cascade (lines 331-433).  The base value
models the consolidator special case of lines 335-343 (the guard
`and not msg` there is always true since msg was just initialised to the
empty string); the if/elif chain of lines 346-433 may overwrite it. -/
def cascataAux (E S : Finset Nat) (plano : Nat) : Veredito :=
  let ind := codigosEntradaIndependentes E
  let eliq := entradasLiquidas E S
  let s := saidasLiquidas E S
  let ef := entradasLiquidasFiltradas E S
  let base : Veredito :=
    if s.card = 0 ∧ eliq.card = 0 ∧ (E ∩ ({31000, 32000, 33000} : Finset Nat)).Nonempty then
      { msg := "OK: Lançamento consolidador correto", gravidade := Gravidade.ok,
        ok := 1, info := 0, erros := 0 }
    else
      { msg := "", gravidade := Gravidade.ok, ok := 0, info := 0, erros := 0 }
  if 1 < s.card then
    erroV base ("ERRO: Participante tem múltiplas saídas finais no mesmo mês ("
      ++ listaCodigos s ++ "). Isso é muito raro e pode indicar problema no sistema.")
  else if 1 < ef.card then
    if s = ({31200} : Finset Nat) ∧ ef = ({21000, 31300} : Finset Nat) then
      okV base "OK: Transição aceita 31200 → (21000 + 31300)"
    else
      erroV base "ERRO: Múltiplas entradas finais"
  else if s.card = 1 ∧ ef.card = 1 then
    let cod_origem := escolha s
    let cod_destino := escolha ef
    if (cod_origem, cod_destino) ∈ regras_validas then
      if cod_origem = 21000 ∧ cod_destino ∈ ({31100, 31200, 31300, 22000} : Finset Nat) then
        erroV base "ERRO: BPD não pode retornar para Ativo"
      else
        okV base ("OK: Transição válida " ++ descricao cod_origem ++ " → " ++ descricao cod_destino)
    else
      erroV base ("ERRO: Transição NÃO PERMITIDA " ++ toString cod_origem ++ " → "
        ++ toString cod_destino)
  else if s.card = 0 ∧ 0 < ef.card then
    let cod_entrada := escolha ef
    if 22000 ∈ S ∧ 31300 ∈ S ∧ cod_entrada ∈ ({11100, 11200} : Finset Nat) then
      if 32000 ∈ E then
        okV base "OK: Transição válida Autopatrocinado → Aposentadoria com consolidadores corretos"
      else
        infoV base "INFO: Processo em andamento"
    else if plano = 5 ∧ cod_entrada ∈ CODIGOS_ADMISSAO then
      infoV base "INFO: Nova admissão no Plano 5"
    else
      infoV base "INFO: Processo em andamento"
  else if s.card = 0 ∧ ef.card = 0 ∧ 0 < ind.card then
    okV base ("OK: Lançamento(s) independente(s) (" ++ listaCodigos ind ++ ")")
  else if 0 < s.card ∧ ef.card = 0 then
    if ((s ∩ ({11100, 11200} : Finset Nat)).Nonempty ∧ 32000 ∈ S) ∨ (14000 ∈ s ∧ 33000 ∈ S) then
      okV base "OK: Saída correta com lançamento consolidador correspondente"
    else if 22000 ∈ s then
      erroV base "ERRO: Saída de autopatrocinado (22000) sem entrada em nova situação"
    else
      infoV base "INFO: Processo em andamento (aguardando conclusão)"
  else base

def cascata (g : List Registro) : Veredito :=
  cascataAux (codigosEntrada g) (codigosSaida g) (planoGrupo g)

/-- Per-group output: final (ANALISE, GRAVIDADE) of every record of the
group, in record order, plus the stats increments of this group. -/
structure ResultadoGrupo where
  registros : List (String × Gravidade)
  ok : Nat
  info : Nat
  erros : Nat
deriving DecidableEq, Repr

/-- One iteration of the participant loop (lines 187-437).  Validação 1
stamps plan-scoped errors first; an early group validation overwrites the
whole group and stops; otherwise the cascade verdict is stamped on the
whole group when its message is non-empty (lines 435-437), and when it is
empty only the plan-scoped stamps (if any) deviate from the initialised
ANALISE and GRAVIDADE values OK of lines 178-181. -/
def analisarGrupo (g : List Registro) : ResultadoGrupo :=
  match validacaoGrupo (codigosEntrada g) (codigosSaida g) with
  | some m =>
      { registros := g.map (fun _ => (m, Gravidade.erro)),
        ok := 0, info := 0, erros := (planosComMultiplasAtivas g).card + 1 }
  | none =>
      let v := cascata g
      if v.msg = "" then
        { registros := g.map (fun r =>
            if r.plano ∈ planosComMultiplasAtivas g then (msgPlano r.plano, Gravidade.erro)
            else ("OK", Gravidade.ok)),
          ok := v.ok, info := v.info, erros := (planosComMultiplasAtivas g).card + v.erros }
      else
        { registros := g.map (fun _ => (v.msg, v.gravidade)),
          ok := v.ok, info := v.info, erros := (planosComMultiplasAtivas g).card + v.erros }

/-- The stats of one month run (lines 185-439): total is the number of
groups, the counters accumulate the increments of every group. -/
structure Stats where
  total : Nat
  ok : Nat
  info : Nat
  erros : Nat
deriving DecidableEq, Repr

def analisarMes (grupos : List (List Registro)) : Stats :=
  { total := grupos.length
  , ok := (grupos.map (fun g => (analisarGrupo g).ok)).sum
  , info := (grupos.map (fun g => (analisarGrupo g).info)).sum
  , erros := (grupos.map (fun g => (analisarGrupo g).erros)).sum }

/-- Worst severity of a list of per-month verdicts, pior_gravidade of
calcular_stats_participantes (lines 446-452). -/
def pior_gravidade (l : List Gravidade) : Gravidade :=
  if Gravidade.erro ∈ l then Gravidade.erro
  else if Gravidade.info ∈ l then Gravidade.info
  else Gravidade.ok

/-! Helper lemmas. -/

theorem escolha_singleton (a : Nat) : escolha {a} = a := rfl

theorem ne_empty_append (a b : String) (h : a ≠ "") : a ++ b ≠ "" := by
  obtain ⟨da⟩ := a
  obtain ⟨db⟩ := b
  intro hab
  apply h
  have hd : da ++ db = ([] : List Char) := congrArg String.data hab
  have h1 : da = [] := (List.append_eq_nil.mp hd).1
  rw [h1]

theorem pairwise_map_const {α β : Type} (l : List α) (c : β) :
    (l.map (fun _ => c)).Pairwise (fun a b => a = b) := by
  induction l with
  | nil => simp
  | cons x t ih =>
    simp only [List.map_cons, List.pairwise_cons]
    refine ⟨fun b hb => ?_, ih⟩
    rcases List.mem_map.mp hb with ⟨y, _, hyb⟩
    exact hyb

theorem analisarGrupo_valida_some (g : List Registro) (m : String)
    (h0 : validacaoGrupo (codigosEntrada g) (codigosSaida g) = some m) :
    (analisarGrupo g).registros = g.map (fun _ => (m, Gravidade.erro)) := by
  unfold analisarGrupo
  rw [h0]

theorem analisarGrupo_valida_none (g : List Registro)
    (h0 : validacaoGrupo (codigosEntrada g) (codigosSaida g) = none)
    (hm : (cascata g).msg ≠ "") :
    (analisarGrupo g).registros = g.map (fun _ => ((cascata g).msg, (cascata g).gravidade)) := by
  unfold analisarGrupo
  rw [h0]
  simp only [hm, if_neg, ite_false]

/-- Evaluation of the cascade when the net sets are exactly one exit and
one entry (branch of line 361). -/
theorem cascataAux_caso_c (E S : Finset Nat) (plano o d : Nat)
    (hs : saidasLiquidas E S = {o}) (he : entradasLiquidasFiltradas E S = {d}) :
    cascataAux E S plano =
      (if (o, d) ∈ regras_validas then
        if o = 21000 ∧ d ∈ ({31100, 31200, 31300, 22000} : Finset Nat) then
          { msg := "ERRO: BPD não pode retornar para Ativo", gravidade := Gravidade.erro,
            ok := 0, info := 0, erros := 1 }
        else
          { msg := "OK: Transição válida " ++ descricao o ++ " → " ++ descricao d,
            gravidade := Gravidade.ok, ok := 1, info := 0, erros := 0 }
      else
        { msg := "ERRO: Transição NÃO PERMITIDA " ++ toString o ++ " → " ++ toString d,
          gravidade := Gravidade.erro, ok := 0, info := 0, erros := 1 }) := by
  simp only [cascataAux, hs, he, escolha_singleton, Finset.card_singleton, lt_self_iff_false,
    if_false, okV, erroV, infoV, one_ne_zero, false_and, and_true, and_self, if_true, ite_false,
    ite_true, and_false, zero_add]

/-- Evaluation of the cascade with no net exit and exactly one filtered
net entry (branch of line 379). -/
theorem cascataAux_caso_d (E S : Finset Nat) (plano d : Nat)
    (hs : saidasLiquidas E S = ∅) (he : entradasLiquidasFiltradas E S = {d}) :
    cascataAux E S plano =
      (if 22000 ∈ S ∧ 31300 ∈ S ∧ d ∈ ({11100, 11200} : Finset Nat) then
        if 32000 ∈ E then
          { msg := "OK: Transição válida Autopatrocinado → Aposentadoria com consolidadores corretos",
            gravidade := Gravidade.ok, ok := 1, info := 0, erros := 0 }
        else
          { msg := "INFO: Processo em andamento", gravidade := Gravidade.info,
            ok := 0, info := 1, erros := 0 }
      else if plano = 5 ∧ d ∈ CODIGOS_ADMISSAO then
        { msg := "INFO: Nova admissão no Plano 5", gravidade := Gravidade.info,
          ok := 0, info := 1, erros := 0 }
      else
        { msg := "INFO: Processo em andamento", gravidade := Gravidade.info,
          ok := 0, info := 1, erros := 0 }) := by
  have hne : ¬ (entradasLiquidas E S).card = 0 := by
    intro h0
    have hempty : entradasLiquidas E S = ∅ := Finset.card_eq_zero.mp h0
    have hef : entradasLiquidasFiltradas E S = ∅ := by
      simp [entradasLiquidasFiltradas, hempty]
    rw [he] at hef
    exact Finset.singleton_ne_empty d hef
  simp only [cascataAux, hs, he, hne, escolha_singleton, Finset.card_singleton, Finset.card_empty,
    lt_self_iff_false, if_false, okV, erroV, infoV, one_ne_zero, false_and, and_false, and_true,
    and_self, if_true, ite_false, ite_true, zero_add, Nat.zero_lt_one, Nat.not_lt_zero,
    zero_ne_one, true_and, Nat.lt_irrefl]

theorem singleton_inter_nonempty_iff (a : Nat) (t : Finset Nat) :
    (({a} : Finset Nat) ∩ t).Nonempty ↔ a ∈ t := by
  constructor
  · rintro ⟨x, hx⟩
    rcases Finset.mem_inter.mp hx with ⟨hx1, hx2⟩
    rwa [Finset.mem_singleton.mp hx1] at hx2
  · intro h
    exact ⟨a, Finset.mem_inter.mpr ⟨Finset.mem_singleton_self a, h⟩⟩

/-- Evaluation of the cascade with exactly one net exit and no filtered
net entry (branch of line 410). -/
theorem cascataAux_caso_e (E S : Finset Nat) (plano o : Nat)
    (hs : saidasLiquidas E S = {o}) (he : entradasLiquidasFiltradas E S = ∅) :
    cascataAux E S plano =
      (if (o ∈ ({11100, 11200} : Finset Nat) ∧ 32000 ∈ S) ∨ (14000 = o ∧ 33000 ∈ S) then
        { msg := "OK: Saída correta com lançamento consolidador correspondente",
          gravidade := Gravidade.ok, ok := 1, info := 0, erros := 0 }
      else if 22000 = o then
        { msg := "ERRO: Saída de autopatrocinado (22000) sem entrada em nova situação",
          gravidade := Gravidade.erro, ok := 0, info := 0, erros := 1 }
      else
        { msg := "INFO: Processo em andamento (aguardando conclusão)", gravidade := Gravidade.info,
          ok := 0, info := 1, erros := 0 }) := by
  simp only [cascataAux, hs, he, Finset.card_singleton, Finset.card_empty, lt_self_iff_false,
    if_false, okV, erroV, infoV, one_ne_zero, false_and, and_false, and_true, and_self, if_true,
    ite_false, ite_true, zero_add, Nat.zero_lt_one, Nat.not_lt_zero, zero_ne_one, true_and,
    Nat.lt_irrefl, singleton_inter_nonempty_iff, Finset.mem_singleton]

/-! Concrete groups used as counterexamples and witnesses. -/

def gC1 : List Registro :=
  [⟨1, 31100, Movimento.entrada⟩, ⟨1, 31200, Movimento.entrada⟩, ⟨2, 31100, Movimento.entrada⟩]

def gW1 : List Registro := [⟨1, 13000, Movimento.entrada⟩]

def gC2 : List Registro := [⟨1, 33000, Movimento.entrada⟩, ⟨1, 14000, Movimento.entrada⟩]

def gC3 : List Registro := [⟨1, 14000, Movimento.entrada⟩, ⟨1, 31100, Movimento.saida⟩]

def gW3 : List Registro := [⟨1, 11100, Movimento.entrada⟩, ⟨1, 31200, Movimento.saida⟩]

def gC4 : List Registro := [⟨1, 31100, Movimento.entrada⟩, ⟨1, 21000, Movimento.saida⟩]

def gW4 : List Registro := [⟨1, 31300, Movimento.entrada⟩, ⟨1, 21000, Movimento.saida⟩]

def gC6 : List Registro :=
  [⟨1, 31100, Movimento.saida⟩, ⟨1, 11100, Movimento.saida⟩, ⟨1, 22000, Movimento.saida⟩]

def gC6a : List Registro :=
  [⟨1, 31100, Movimento.saida⟩, ⟨1, 31200, Movimento.saida⟩, ⟨1, 11100, Movimento.saida⟩]

def gC7 : List Registro :=
  [⟨1, 22000, Movimento.entrada⟩, ⟨1, 31300, Movimento.entrada⟩, ⟨1, 11100, Movimento.entrada⟩,
   ⟨1, 32000, Movimento.entrada⟩, ⟨1, 22000, Movimento.saida⟩, ⟨1, 31300, Movimento.saida⟩]

def gW7 : List Registro := [⟨5, 31100, Movimento.entrada⟩]

def gC8 : List Registro := [⟨1, 22000, Movimento.saida⟩]

def gW8 : List Registro := [⟨1, 11100, Movimento.saida⟩]

def gC9 : List Registro := [⟨1, 14000, Movimento.entrada⟩, ⟨1, 15000, Movimento.entrada⟩]

def gW9 : List Registro :=
  [⟨1, 14000, Movimento.entrada⟩, ⟨1, 15000, Movimento.entrada⟩, ⟨1, 33000, Movimento.entrada⟩]

/-! Claim C1. -/

/-- C1 counterexample: in the group gC1 the two plan-1 records end with
the plan-scoped ERRO of Validação 1 while the plan-2 record keeps the
initialised OK values — the records of one group do NOT all carry the
same GRAVIDADE and ANALISE (the cascade fell through with an empty
message, so no group-wide stamp happened). -/
theorem C1_counterexample :
    (analisarGrupo gC1).registros[0]? =
      some ("ERRO: Múltiplas situações ativas no Plano 1", Gravidade.erro) ∧
    (analisarGrupo gC1).registros[2]? = some ("OK", Gravidade.ok) ∧
    (analisarGrupo gC1).registros[0]? ≠ (analisarGrupo gC1).registros[2]? := by
  decide

/-- C1 amended: whenever a group-wide message is produced — an early
validation fired, or the cascade produced a non-empty message — all
records of the group carry the same (ANALISE, GRAVIDADE) pair.  Only
when the cascade falls through with an empty message can the plan-scoped
errors of Validação 1 make records of the same group differ. -/
theorem C1_amended (g : List Registro)
    (h : (validacaoGrupo (codigosEntrada g) (codigosSaida g)).isSome = true ∨
      (cascata g).msg ≠ "") :
    (analisarGrupo g).registros.Pairwise (fun a b => a = b) := by
  cases hv : validacaoGrupo (codigosEntrada g) (codigosSaida g) with
  | some m =>
    rw [analisarGrupo_valida_some g m hv]
    exact pairwise_map_const g _
  | none =>
    have hm : (cascata g).msg ≠ "" := by
      rcases h with h | h
      · rw [hv] at h
        simp at h
      · exact h
    rw [analisarGrupo_valida_none g hv hm]
    exact pairwise_map_const g _

/-- C1 witness at the concrete group gW1. -/
theorem C1_amended_witness :
    ((validacaoGrupo (codigosEntrada gW1) (codigosSaida gW1)).isSome = true ∨
      (cascata gW1).msg ≠ "") ∧
    (analisarGrupo gW1).registros.Pairwise (fun a b => a = b) :=
  ⟨Or.inr (by decide), C1_amended gW1 (Or.inr (by decide))⟩

/-! Claim C2. -/

/-- C2 counterexample: the single group gC2 (entries 33000 and 14000,
no exits) fires no guard at all — no counter is incremented although the
group is counted in total, so ok + info + erros is 0 while total is 1. -/
theorem C2_counterexample :
    (analisarMes [gC2]).total = 1 ∧
    (analisarMes [gC2]).ok + (analisarMes [gC2]).info + (analisarMes [gC2]).erros = 0 ∧
    (analisarMes [gC2]).ok + (analisarMes [gC2]).info + (analisarMes [gC2]).erros ≠
      (analisarMes [gC2]).total := by
  decide

/-- C2 amended: total equals the number of participant groups of the
month.  The ok, info and erros counters count guard firings rather than
groups: a group can contribute zero increments (no guard fires, as the
counterexample shows) or several (one per plan caught by Validação 1
plus a cascade verdict), so ok + info + erros need not equal total. -/
theorem C2_amended (grupos : List (List Registro)) :
    (analisarMes grupos).total = grupos.length := rfl

/-! Claim C3. -/

/-- C3 counterexample: the pair (31100, 14000) is in the rule table and
31100 is not a no-return code; the group gC3 has exactly net exit 31100
and net entry 14000, yet it is classified ERRO by the earlier 14000
validation (entry 14000 without entry 33000), not OK. -/
theorem C3_counterexample :
    (31100, 14000) ∈ regras_validas ∧
    31100 ∉ CODIGOS_SEM_RETORNO ∧
    saidasLiquidas (codigosEntrada gC3) (codigosSaida gC3) = {31100} ∧
    entradasLiquidasFiltradas (codigosEntrada gC3) (codigosSaida gC3) = {14000} ∧
    (analisarGrupo gC3).registros =
      [(msgEntrada14000, Gravidade.erro), (msgEntrada14000, Gravidade.erro)] ∧
    Gravidade.erro ≠ Gravidade.ok := by
  decide

/-- C3 amended: provided additionally that no earlier group validation
fires, a group with exactly one net exit o and one filtered net entry d
with (o, d) in the rule table and o not a no-return code is classified
OK with the valid-transition message naming both descriptions. -/
theorem C3_amended (g : List Registro) (o d : Nat)
    (h0 : validacaoGrupo (codigosEntrada g) (codigosSaida g) = none)
    (hs : saidasLiquidas (codigosEntrada g) (codigosSaida g) = {o})
    (he : entradasLiquidasFiltradas (codigosEntrada g) (codigosSaida g) = {d})
    (hr : (o, d) ∈ regras_validas)
    (hnr : o ∉ CODIGOS_SEM_RETORNO) :
    (analisarGrupo g).registros =
      g.map (fun _ =>
        ("OK: Transição válida " ++ descricao o ++ " → " ++ descricao d, Gravidade.ok)) := by
  have ho : ¬ (o = 21000 ∧ d ∈ ({31100, 31200, 31300, 22000} : Finset Nat)) := by
    rintro ⟨rfl, _⟩
    exact hnr (by decide)
  have hc : cascata g =
      { msg := "OK: Transição válida " ++ descricao o ++ " → " ++ descricao d,
        gravidade := Gravidade.ok, ok := 1, info := 0, erros := 0 } := by
    rw [cascata, cascataAux_caso_c _ _ _ o d hs he, if_pos hr, if_neg ho]
  have hmsg : (cascata g).msg ≠ "" := by
    rw [hc]
    exact ne_empty_append _ _ (ne_empty_append _ _ (ne_empty_append _ _ (by decide)))
  rw [analisarGrupo_valida_none g h0 hmsg, hc]

/-- C3 witness at the concrete group gW3 (exit 31200, entry 11100). -/
theorem C3_amended_witness :
    validacaoGrupo (codigosEntrada gW3) (codigosSaida gW3) = none ∧
    (31200, 11100) ∈ regras_validas ∧
    (analisarGrupo gW3).registros =
      gW3.map (fun _ =>
        ("OK: Transição válida " ++ descricao 31200 ++ " → " ++ descricao 11100, Gravidade.ok)) :=
  ⟨by decide, by decide,
    C3_amended gW3 31200 11100 (by decide) (by decide) (by decide) (by decide) (by decide)⟩

/-! Claim C4. -/

/-- C4 counterexample: the group gC4 has sole net exit 21000 and sole
net entry 31100, but (21000, 31100) is not in the rule table, so the code
emits the transition-not-permitted message, not the no-return message
that the claim asserts for this very input. -/
theorem C4_counterexample :
    saidasLiquidas (codigosEntrada gC4) (codigosSaida gC4) = {21000} ∧
    entradasLiquidasFiltradas (codigosEntrada gC4) (codigosSaida gC4) = {31100} ∧
    (21000, 31100) ∉ regras_validas ∧
    (analisarGrupo gC4).registros =
      [("ERRO: Transição NÃO PERMITIDA 21000 → 31100", Gravidade.erro),
       ("ERRO: Transição NÃO PERMITIDA 21000 → 31100", Gravidade.erro)] ∧
    "ERRO: Transição NÃO PERMITIDA 21000 → 31100" ≠ "ERRO: BPD não pode retornar para Ativo" := by
  decide

/-- C4 amended: when no earlier validation fires and the group has sole
net exit 21000 and sole filtered net entry d with (21000, d) in the rule
table and d an active code, the verdict is ERRO with the no-return
message; the pair (21000, 31100) however is NOT in the rule table, so
that scenario takes the transition-not-permitted ERRO instead. -/
theorem C4_amended (g : List Registro) (d : Nat)
    (h0 : validacaoGrupo (codigosEntrada g) (codigosSaida g) = none)
    (hs : saidasLiquidas (codigosEntrada g) (codigosSaida g) = {21000})
    (he : entradasLiquidasFiltradas (codigosEntrada g) (codigosSaida g) = {d})
    (hr : (21000, d) ∈ regras_validas)
    (hd : d ∈ CODIGOS_ATIVOS) :
    (analisarGrupo g).registros =
      g.map (fun _ => ("ERRO: BPD não pode retornar para Ativo", Gravidade.erro)) := by
  have hd4 : d ∈ ({31100, 31200, 31300, 22000} : Finset Nat) :=
    Finset.mem_of_subset (by decide) hd
  have hc : cascata g =
      { msg := "ERRO: BPD não pode retornar para Ativo", gravidade := Gravidade.erro,
        ok := 0, info := 0, erros := 1 } := by
    rw [cascata, cascataAux_caso_c _ _ _ 21000 d hs he, if_pos hr, if_pos ⟨rfl, hd4⟩]
  have hmsg : (cascata g).msg ≠ "" := by
    rw [hc]
    decide
  rw [analisarGrupo_valida_none g h0 hmsg, hc]

/-- C4 witness at the concrete group gW4 (exit 21000, entry 31300, the
one active destination whose pair with 21000 is in the rule table). -/
theorem C4_amended_witness :
    validacaoGrupo (codigosEntrada gW4) (codigosSaida gW4) = none ∧
    (21000, 31300) ∈ regras_validas ∧
    (analisarGrupo gW4).registros =
      gW4.map (fun _ => ("ERRO: BPD não pode retornar para Ativo", Gravidade.erro)) :=
  ⟨by decide, by decide,
    C4_amended gW4 31300 (by decide) (by decide) (by decide) (by decide) (by decide)⟩

/-! Claim C5. -/

/-- C5: the net-exit set used by the cascade equals the raw net exits
unchanged when they number at most one, and equals the raw net exits
minus CODIGOS_RUIDO_SAIDA when there is more than one. -/
theorem C5_confirmed (E S : Finset Nat) :
    ((saidasLiquidasBrutas E S).card ≤ 1 →
      saidasLiquidas E S = saidasLiquidasBrutas E S) ∧
    (1 < (saidasLiquidasBrutas E S).card →
      saidasLiquidas E S = saidasLiquidasBrutas E S \ CODIGOS_RUIDO_SAIDA) := by
  constructor
  · intro h
    rw [saidasLiquidas, if_neg (by omega)]
  · intro h
    rw [saidasLiquidas, if_pos h]

/-- C5 witness: three raw net exits, noise filtering applies. -/
theorem C5_confirmed_witness :
    1 < (saidasLiquidasBrutas (∅ : Finset Nat) {31100, 11100, 22000}).card ∧
    saidasLiquidas (∅ : Finset Nat) {31100, 11100, 22000} =
      saidasLiquidasBrutas (∅ : Finset Nat) {31100, 11100, 22000} \ CODIGOS_RUIDO_SAIDA :=
  ⟨by decide, (C5_confirmed (∅ : Finset Nat) {31100, 11100, 22000}).2 (by decide)⟩

/-! Claim C6. -/

/-- C6 counterexample: for exits 31100, 11100, 22000 and no entries,
noise filtering removes only 31100 (11100 is not a noise code — 11000
is), leaving TWO net exits, and the group gets the multiple-final-exits
ERRO instead of being classified on a single remaining code. -/
theorem C6_counterexample :
    saidasLiquidas (codigosEntrada gC6) (codigosSaida gC6) = {11100, 22000} ∧
    (saidasLiquidas (codigosEntrada gC6) (codigosSaida gC6)).card ≠ 1 ∧
    (analisarGrupo gC6).registros.map Prod.snd =
      [Gravidade.erro, Gravidade.erro, Gravidade.erro] ∧
    (analisarGrupo gC6).registros[0]? =
      some ("ERRO: Participante tem múltiplas saídas finais no mesmo mês (11100, 22000). Isso é muito raro e pode indicar problema no sistema.",
        Gravidade.erro) := by
  decide

/-- C6 amended: a noise-reduction scenario that does reach a single code
needs all but one exit to be noise codes: for exits 31100, 31200, 11100
and no entries the three raw net exits filter down to the single code
11100 and the group is classified on it (INFO awaiting conclusion), not
with the multiplicity ERRO.  The exit set named by the claim, with
22000 and 11100, filters to two codes and yields the multiplicity
ERRO. -/
theorem C6_amended :
    1 < (saidasLiquidasBrutas (codigosEntrada gC6a) (codigosSaida gC6a)).card ∧
    saidasLiquidas (codigosEntrada gC6a) (codigosSaida gC6a) = {11100} ∧
    (analisarGrupo gC6a).registros =
      [("INFO: Processo em andamento (aguardando conclusão)", Gravidade.info),
       ("INFO: Processo em andamento (aguardando conclusão)", Gravidade.info),
       ("INFO: Processo em andamento (aguardando conclusão)", Gravidade.info)] := by
  decide

/-! Claim C7. -/

/-- C7 counterexample: the group gC7 reaches the zero-net-exit branch
with sole filtered net entry 11100 and no earlier guard fired, yet its
verdict is OK (autopatrocinado-to-retirement with correct
consolidators), contradicting the claim that the severity in this branch
is always INFO. -/
theorem C7_counterexample :
    validacaoGrupo (codigosEntrada gC7) (codigosSaida gC7) = none ∧
    saidasLiquidas (codigosEntrada gC7) (codigosSaida gC7) = ∅ ∧
    entradasLiquidasFiltradas (codigosEntrada gC7) (codigosSaida gC7) = {11100} ∧
    (analisarGrupo gC7).registros[0]? =
      some ("OK: Transição válida Autopatrocinado → Aposentadoria com consolidadores corretos",
        Gravidade.ok) ∧
    Gravidade.ok ≠ Gravidade.info := by
  decide

/-- C7 amended: in the zero-net-exit, one-net-entry branch the verdict
is never ERRO; it is OK exactly when 22000 and 31300 are among the exit
codes, the sole net entry is 11100 or 11200 and 32000 is among the
entry codes; when those exit conditions hold without 32000 the message
is the plain in-progress INFO; otherwise the verdict is INFO — the
admission message when the plan of the first record is 5 and the entry
is an admission code, the in-progress message in the remaining cases. -/
theorem C7_amended (g : List Registro) (d : Nat)
    (h0 : validacaoGrupo (codigosEntrada g) (codigosSaida g) = none)
    (hs : saidasLiquidas (codigosEntrada g) (codigosSaida g) = ∅)
    (he : entradasLiquidasFiltradas (codigosEntrada g) (codigosSaida g) = {d}) :
    (∀ x ∈ (analisarGrupo g).registros, x.2 ≠ Gravidade.erro) ∧
    ((22000 ∈ codigosSaida g ∧ 31300 ∈ codigosSaida g ∧ d ∈ ({11100, 11200} : Finset Nat)) →
      (32000 ∈ codigosEntrada g →
        (analisarGrupo g).registros = g.map (fun _ =>
          ("OK: Transição válida Autopatrocinado → Aposentadoria com consolidadores corretos",
            Gravidade.ok))) ∧
      (32000 ∉ codigosEntrada g →
        (analisarGrupo g).registros = g.map (fun _ =>
          ("INFO: Processo em andamento", Gravidade.info)))) ∧
    (¬ (22000 ∈ codigosSaida g ∧ 31300 ∈ codigosSaida g ∧ d ∈ ({11100, 11200} : Finset Nat)) →
      ((planoGrupo g = 5 ∧ d ∈ CODIGOS_ADMISSAO) →
        (analisarGrupo g).registros = g.map (fun _ =>
          ("INFO: Nova admissão no Plano 5", Gravidade.info))) ∧
      (¬ (planoGrupo g = 5 ∧ d ∈ CODIGOS_ADMISSAO) →
        (analisarGrupo g).registros = g.map (fun _ =>
          ("INFO: Processo em andamento", Gravidade.info)))) := by
  have hd := cascataAux_caso_d (codigosEntrada g) (codigosSaida g) (planoGrupo g) d hs he
  by_cases c1 : 22000 ∈ codigosSaida g ∧ 31300 ∈ codigosSaida g ∧
      d ∈ ({11100, 11200} : Finset Nat)
  · by_cases c2 : 32000 ∈ codigosEntrada g
    · have hc : cascata g =
          { msg := "OK: Transição válida Autopatrocinado → Aposentadoria com consolidadores corretos",
            gravidade := Gravidade.ok, ok := 1, info := 0, erros := 0 } := by
        rw [cascata, hd, if_pos c1, if_pos c2]
      have hre := analisarGrupo_valida_none g h0 (by rw [hc]; decide)
      rw [hc] at hre
      refine ⟨?_, fun _ => ⟨fun _ => hre, fun hn => absurd c2 hn⟩, fun hn => absurd c1 hn⟩
      intro x hx
      rw [hre] at hx
      rcases List.mem_map.mp hx with ⟨y, _, rfl⟩
      decide
    · have hc : cascata g =
          { msg := "INFO: Processo em andamento", gravidade := Gravidade.info,
            ok := 0, info := 1, erros := 0 } := by
        rw [cascata, hd, if_pos c1, if_neg c2]
      have hre := analisarGrupo_valida_none g h0 (by rw [hc]; decide)
      rw [hc] at hre
      refine ⟨?_, fun _ => ⟨fun h2 => absurd h2 c2, fun _ => hre⟩, fun hn => absurd c1 hn⟩
      intro x hx
      rw [hre] at hx
      rcases List.mem_map.mp hx with ⟨y, _, rfl⟩
      decide
  · by_cases c3 : planoGrupo g = 5 ∧ d ∈ CODIGOS_ADMISSAO
    · have hc : cascata g =
          { msg := "INFO: Nova admissão no Plano 5", gravidade := Gravidade.info,
            ok := 0, info := 1, erros := 0 } := by
        rw [cascata, hd, if_neg c1, if_pos c3]
      have hre := analisarGrupo_valida_none g h0 (by rw [hc]; decide)
      rw [hc] at hre
      refine ⟨?_, fun h1 => absurd h1 c1, fun _ => ⟨fun _ => hre, fun hn => absurd c3 hn⟩⟩
      intro x hx
      rw [hre] at hx
      rcases List.mem_map.mp hx with ⟨y, _, rfl⟩
      decide
    · have hc : cascata g =
          { msg := "INFO: Processo em andamento", gravidade := Gravidade.info,
            ok := 0, info := 1, erros := 0 } := by
        rw [cascata, hd, if_neg c1, if_neg c3]
      have hre := analisarGrupo_valida_none g h0 (by rw [hc]; decide)
      rw [hc] at hre
      refine ⟨?_, fun h1 => absurd h1 c1, fun _ => ⟨fun h3 => absurd h3 c3, fun _ => hre⟩⟩
      intro x hx
      rw [hre] at hx
      rcases List.mem_map.mp hx with ⟨y, _, rfl⟩
      decide

/-- C7 witness at the concrete group gW7 (plan 5, single entry 31100):
the new-admission INFO case. -/
theorem C7_amended_witness :
    validacaoGrupo (codigosEntrada gW7) (codigosSaida gW7) = none ∧
    (analisarGrupo gW7).registros = [("INFO: Nova admissão no Plano 5", Gravidade.info)] := by
  refine ⟨by decide, ?_⟩
  have h := C7_amended gW7 31100 (by decide) (by decide) (by decide)
  have h2 := ((h.2.2 (by decide)).1 ⟨by decide, by decide⟩)
  rw [h2]
  rfl

/-! Claim C8. -/

/-- C8 counterexample: the group gC8 (sole net exit 22000, no net
entries, no earlier guard fired) receives an ERRO verdict — the exit of
an autopatrocinado without a new situation — contradicting the claim
that this branch only yields INFO or OK. -/
theorem C8_counterexample :
    validacaoGrupo (codigosEntrada gC8) (codigosSaida gC8) = none ∧
    saidasLiquidas (codigosEntrada gC8) (codigosSaida gC8) = {22000} ∧
    entradasLiquidasFiltradas (codigosEntrada gC8) (codigosSaida gC8) = ∅ ∧
    (analisarGrupo gC8).registros =
      [("ERRO: Saída de autopatrocinado (22000) sem entrada em nova situação",
        Gravidade.erro)] := by
  decide

/-- C8 amended: with one net exit o and no filtered net entries (and no
earlier guard fired) the verdict is OK when the consolidator condition
for o holds (o is a retirement code with 32000 among the exits, or o is
the pension code with 33000 among the exits); otherwise it is ERRO when
o is 22000 (autopatrocinado exit without a new situation), and INFO
awaiting conclusion in all remaining cases. -/
theorem C8_amended (g : List Registro) (o : Nat)
    (h0 : validacaoGrupo (codigosEntrada g) (codigosSaida g) = none)
    (hs : saidasLiquidas (codigosEntrada g) (codigosSaida g) = {o})
    (he : entradasLiquidasFiltradas (codigosEntrada g) (codigosSaida g) = ∅) :
    (((o ∈ ({11100, 11200} : Finset Nat) ∧ 32000 ∈ codigosSaida g) ∨
        (14000 = o ∧ 33000 ∈ codigosSaida g)) →
      (analisarGrupo g).registros = g.map (fun _ =>
        ("OK: Saída correta com lançamento consolidador correspondente", Gravidade.ok))) ∧
    (¬ ((o ∈ ({11100, 11200} : Finset Nat) ∧ 32000 ∈ codigosSaida g) ∨
        (14000 = o ∧ 33000 ∈ codigosSaida g)) →
      (22000 = o →
        (analisarGrupo g).registros = g.map (fun _ =>
          ("ERRO: Saída de autopatrocinado (22000) sem entrada em nova situação",
            Gravidade.erro))) ∧
      (¬ 22000 = o →
        (analisarGrupo g).registros = g.map (fun _ =>
          ("INFO: Processo em andamento (aguardando conclusão)", Gravidade.info)))) := by
  have hd := cascataAux_caso_e (codigosEntrada g) (codigosSaida g) (planoGrupo g) o hs he
  by_cases c1 : (o ∈ ({11100, 11200} : Finset Nat) ∧ 32000 ∈ codigosSaida g) ∨
      (14000 = o ∧ 33000 ∈ codigosSaida g)
  · have hc : cascata g =
        { msg := "OK: Saída correta com lançamento consolidador correspondente",
          gravidade := Gravidade.ok, ok := 1, info := 0, erros := 0 } := by
      rw [cascata, hd, if_pos c1]
    have hre := analisarGrupo_valida_none g h0 (by rw [hc]; decide)
    rw [hc] at hre
    exact ⟨fun _ => hre, fun hn => absurd c1 hn⟩
  · by_cases c2 : 22000 = o
    · have hc : cascata g =
          { msg := "ERRO: Saída de autopatrocinado (22000) sem entrada em nova situação",
            gravidade := Gravidade.erro, ok := 0, info := 0, erros := 1 } := by
        rw [cascata, hd, if_neg c1, if_pos c2]
      have hre := analisarGrupo_valida_none g h0 (by rw [hc]; decide)
      rw [hc] at hre
      exact ⟨fun h1 => absurd h1 c1, fun _ => ⟨fun _ => hre, fun hn => absurd c2 hn⟩⟩
    · have hc : cascata g =
          { msg := "INFO: Processo em andamento (aguardando conclusão)",
            gravidade := Gravidade.info, ok := 0, info := 1, erros := 0 } := by
        rw [cascata, hd, if_neg c1, if_neg c2]
      have hre := analisarGrupo_valida_none g h0 (by rw [hc]; decide)
      rw [hc] at hre
      exact ⟨fun h1 => absurd h1 c1, fun _ => ⟨fun h2 => absurd h2 c2, fun _ => hre⟩⟩

/-- C8 witness at the concrete group gW8 (sole net exit 11100, no
consolidator): the INFO awaiting-conclusion case. -/
theorem C8_amended_witness :
    validacaoGrupo (codigosEntrada gW8) (codigosSaida gW8) = none ∧
    (analisarGrupo gW8).registros =
      [("INFO: Processo em andamento (aguardando conclusão)", Gravidade.info)] := by
  refine ⟨by decide, ?_⟩
  have h := C8_amended gW8 11100 (by decide) (by decide) (by decide)
  have h2 := (h.2 (by decide)).2 (by decide)
  rw [h2]
  rfl

/-! Claim C9. -/

/-- C9 counterexample: the group gC9 has entries 14000 and 15000 and no
exits, but its verdict message is the earlier 14000-without-33000 error,
not the pension-and-lump-sum message asserted by the claim. -/
theorem C9_counterexample :
    14000 ∈ codigosEntrada gC9 ∧ 15000 ∈ codigosEntrada gC9 ∧
    codigosSaida gC9 = ∅ ∧
    (analisarGrupo gC9).registros =
      [(msgEntrada14000, Gravidade.erro), (msgEntrada14000, Gravidade.erro)] ∧
    msgEntrada14000 ≠ msgPensaoPeculio := by
  decide

/-- C9 amended: a group whose entries include 14000 and 15000 with no
exits is always classified ERRO, but the pension-and-lump-sum message
appears only when 33000 is also among the entries (otherwise the earlier
14000-without-33000 validation fires first with its own message). -/
theorem C9_amended (g : List Registro)
    (h14 : 14000 ∈ codigosEntrada g) (h15 : 15000 ∈ codigosEntrada g)
    (h33 : 33000 ∈ codigosEntrada g) (hS : codigosSaida g = ∅) :
    (analisarGrupo g).registros = g.map (fun _ => (msgPensaoPeculio, Gravidade.erro)) := by
  have h0 : validacaoGrupo (codigosEntrada g) (codigosSaida g) = some msgPensaoPeculio := by
    rw [hS, validacaoGrupo]
    have c1 : ¬ ((14000 ∈ codigosEntrada g ∨ 14000 ∈ (∅ : Finset Nat)) ∧
        (14000 ∈ (∅ : Finset Nat) ∧ 33000 ∉ (∅ : Finset Nat))) := by
      simp
    have c2 : ¬ ((14000 ∈ codigosEntrada g ∨ 14000 ∈ (∅ : Finset Nat)) ∧
        (14000 ∈ codigosEntrada g ∧ 33000 ∉ codigosEntrada g)) := fun h => h.2.2 h33
    rw [if_neg c1, if_neg c2, if_pos ⟨h14, h15⟩]
  exact analisarGrupo_valida_some g msgPensaoPeculio h0

/-- C9 witness at the concrete group gW9 (entries 14000, 15000 and
33000, no exits). -/
theorem C9_amended_witness :
    14000 ∈ codigosEntrada gW9 ∧ 15000 ∈ codigosEntrada gW9 ∧ 33000 ∈ codigosEntrada gW9 ∧
    codigosSaida gW9 = ∅ ∧
    (analisarGrupo gW9).registros = gW9.map (fun _ => (msgPensaoPeculio, Gravidade.erro)) :=
  ⟨by decide, by decide, by decide, by decide,
    C9_amended gW9 (by decide) (by decide) (by decide) (by decide)⟩

/-! Claim C10. -/

/-- C10: the worst-severity reduction over the per-month verdicts of a
participant is ERRO if any verdict is ERRO, else INFO if any is INFO,
else OK. -/
theorem C10_confirmed (l : List Gravidade) (hne : l ≠ []) :
    (Gravidade.erro ∈ l → pior_gravidade l = Gravidade.erro) ∧
    (Gravidade.erro ∉ l → Gravidade.info ∈ l → pior_gravidade l = Gravidade.info) ∧
    (Gravidade.erro ∉ l → Gravidade.info ∉ l → pior_gravidade l = Gravidade.ok) := by
  refine ⟨fun h => ?_, fun h1 h2 => ?_, fun h1 h2 => ?_⟩
  · rw [pior_gravidade, if_pos h]
  · rw [pior_gravidade, if_neg h1, if_pos h2]
  · rw [pior_gravidade, if_neg h1, if_neg h2]

/-- C10 witness at a concrete list containing an INFO but no ERRO. -/
theorem C10_confirmed_witness :
    ([Gravidade.ok, Gravidade.info] ≠ ([] : List Gravidade)) ∧
    pior_gravidade [Gravidade.ok, Gravidade.info] = Gravidade.info :=
  ⟨by decide,
    (C10_confirmed [Gravidade.ok, Gravidade.info] (by decide)).2.1 (by decide) (by decide)⟩

end ArcelorPrevic
